import Mathlib

/-!
Verification of the scheduling and file-mutation logic of the automated
git-commit script (src/main.py).  The file concatenates two program
variants; both are embedded here.  Real-valued random draws (gaussian
and exponential samples) are modelled as explicit rational inputs, since
the code is a deterministic function of the drawn values.  Wall-clock
readings are modelled as a sequence of rationals, dates as integers.
-/

/-- Minimum delay floor of variant 1 (seconds). -/
def MIN_DELAY : ℚ := 10

/-- Clamp factor: no wait beyond mean times this multiplier. -/
def MAX_MULTIPLIER : ℚ := 4

/-- Variant 1 base mean interval: 3600 / times_per_hour, raised to
MIN_DELAY when below it.  Defined for a nonzero rate. -/
def BASE_MEAN_INTERVAL_v1 (tph : ℚ) : ℚ :=
  if 3600 / tph < MIN_DELAY then MIN_DELAY else 3600 / tph

/-- Variant 1 weekly resample: the gaussian draw g floored at MIN_DELAY. -/
def resample_weekly (g : ℚ) : ℚ :=
  max MIN_DELAY g

/-- Variant 1 daily resample: gaussian draw g (centered on weekly_mean,
which shapes only the distribution) floored at MIN_DELAY. -/
def resample_daily (weekly_mean g : ℚ) : ℚ :=
  max MIN_DELAY g

/-- Clamped exponential delay: the exponential draw e, clamped to at most
mean times MAX_MULTIPLIER.  Shared verbatim by both variants. -/
def draw_delay (mean e : ℚ) : ℚ :=
  min e (mean * MAX_MULTIPLIER)

/-- In-process schedule state: cached week/day keys and means. -/
structure SchedState where
  current_week : Option ℤ
  weekly_mean : ℚ
  current_day : Option ℤ
  daily_mean : ℚ
deriving Repr, DecidableEq

/-- Initial schedule state: keys None, both means at the base interval. -/
def initState (base : ℚ) : SchedState :=
  ⟨none, base, none, base⟩

/-- Variant 1 get_effective_delay.  Inputs: the configured rate tph, the
current ISO week number and calendar day, the three random draws of this
call (gaussian weekly gw, gaussian daily gd, exponential e), and the
schedule state.  Returns the updated state and the delay. -/
def get_effective_delay (tph : ℚ) (week today : ℤ) (gw gd e : ℚ)
    (s : SchedState) : SchedState × ℚ :=
  if 10 < tph then
    (s, max MIN_DELAY e)
  else
    let s1 := if some week = s.current_week then s else { s with weekly_mean := resample_weekly gw, current_week := some week }
    let s2 := if some today = s1.current_day then s1 else { s1 with daily_mean := resample_daily s1.weekly_mean gd, current_day := some today }
    (s2, draw_delay s2.daily_mean e)

namespace V2

/-- Variant 2 base mean interval: 3600 / times_per_hour, no floor. -/
def BASE_MEAN_INTERVAL (tph : ℚ) : ℚ :=
  3600 / tph

/-- Variant 2 weekly resample: gaussian draw floored at 600. -/
def resample_weekly (g : ℚ) : ℚ :=
  max 600 g

/-- Variant 2 daily resample: gaussian draw floored at 300. -/
def resample_daily (weekly_mean g : ℚ) : ℚ :=
  max 300 g

/-- Variant 2 per-iteration schedule update, inlined in its main loop:
resample the weekly mean on a new week, the daily mean on a new day. -/
def update_state (week today : ℤ) (gw gd : ℚ) (s : SchedState) : SchedState :=
  let s1 := if some week = s.current_week then s else { s with weekly_mean := resample_weekly gw, current_week := some week }
  if some today = s1.current_day then s1 else { s1 with daily_mean := resample_daily s1.weekly_mean gd, current_day := some today }

/-- Variant 2 per-iteration delay computation: update the state, then
draw the clamped exponential delay from the daily mean. -/
def loop_delay (week today : ℤ) (gw gd e : ℚ) (s : SchedState) :
    SchedState × ℚ :=
  let s2 := update_state week today gw gd s
  (s2, draw_delay s2.daily_mean e)

end V2

/-- Hierarchical delay step with the weekly and daily floors as explicit
parameters; both variants instantiate it (spec section 9 treats the
floors as configurable parameters). -/
def hier_delay (wfloor dfloor : ℚ) (week today : ℤ) (gw gd e : ℚ)
    (s : SchedState) : SchedState × ℚ :=
  let s1 := if some week = s.current_week then s else { s with weekly_mean := max wfloor gw, current_week := some week }
  let s2 := if some today = s1.current_day then s1 else { s1 with daily_mean := max dfloor gd, current_day := some today }
  (s2, draw_delay s2.daily_mean e)

/-- Python str.endswith, as a suffix test on the character lists. -/
def strEndsWith (s suffix : String) : Bool :=
  suffix.data.isSuffixOf s.data

/-- Last path component, as os.path.basename on slash-separated paths. -/
def basename (p : String) : String :=
  (p.splitOn "/").getLastD ""

/-- Python str.title on ASCII text: the first letter of each alphabetic
run is uppercased, the following letters lowercased. -/
def pyTitleAux : List Char → Bool → List Char
  | [], _ => []
  | c :: cs, prev =>
    if c.isAlpha then (if prev then c.toLower else c.toUpper) :: pyTitleAux cs true
    else c :: pyTitleAux cs false

/-- Python str.title as a String function. -/
def pyTitle (s : String) : String :=
  ⟨pyTitleAux s.data false⟩

/-- Template written for an absent .py file (ensure_file_exists). -/
def pyTemplate (path : String) : String :=
  let b := basename path
  let t := pyTitle ((b.replace ".py" "").replace "_" " ")
  "# " ++ b ++ "\n\"\"\"\n" ++ t ++ "\n\"\"\"\n\ndef main():\n    \"\"\"Main function.\"\"\"\n    pass\n\nif __name__ == \"__main__\":\n    main()\n"

/-- Template written for an absent .md file (ensure_file_exists). -/
def mdTemplate (path : String) : String :=
  let n := ((basename path).replace ".md" "").replace "_" " "
  "# " ++ pyTitle n ++ "\n\n## Overview\n\nThis file contains documentation for " ++ n.toLower ++ ".\n\n## Usage\n\nAdd usage instructions here.\n"

/-- Generic fallback template for other extensions (ensure_file_exists). -/
def genericTemplate (path : String) : String :=
  "# " ++ basename path ++ "\n\nContent for " ++ path ++ "\n"

/-- Content chosen by ensure_file_exists for an absent path, dispatching
on the file extension. -/
def template_content (path : String) : String :=
  if strEndsWith path ".py" then pyTemplate path
  else if strEndsWith path ".md" then mdTemplate path
  else genericTemplate path

/-- ensure_file_exists on the content level: an existing file (some c) is
left as is, an absent file (none) receives the template content. -/
def ensure_file_exists (path : String) (old : Option String) : String :=
  match old with
  | some c => c
  | none => template_content path

/-- The timestamp note tweak_file appends, chosen by extension. -/
def stamp_note (path ts : String) : String :=
  if strEndsWith path ".md" then "\n> Last touched: " ++ ts ++ "\n"
  else "\n# Touched at " ++ ts ++ "\n"

/-- tweak_file on the content level: ensure the file exists, then append
the timestamp note.  old is the file content before the call (none when
the path is absent), ts the formatted UTC timestamp. -/
def tweak_file (path ts : String) (old : Option String) : String :=
  ensure_file_exists path old ++ stamp_note path ts

/-- One countdown poll loop: at poll index i with the given fuel, exit
returning i once elapsed (clock i minus clock 0) reaches delay, else
sleep and poll again.  clock is the sequence of time readings; reading 0
is the start value taken before the loop. -/
def countdown_go (clock : ℕ → ℚ) (delay : ℚ) : ℕ → ℕ → Option ℕ
  | _, 0 => none
  | i, fuel + 1 =>
    if delay ≤ clock i - clock 0 then some i else countdown_go clock delay (i + 1) fuel

/-- countdown: poll from index 1 (the first reading after start). -/
def countdown (clock : ℕ → ℚ) (delay : ℚ) (fuel : ℕ) : Option ℕ :=
  countdown_go clock delay 1 fuel

/-- Argument vector of the git add step. -/
def git_add (file : String) : List String :=
  ["git", "add", file]

/-- Argument vector of the git commit step. -/
def git_commit (msg : String) : List String :=
  ["git", "commit", "-m", msg]

/-- Argument vector of the git push step. -/
def git_push : List String :=
  ["git", "push", "origin", "main"]

/-- File system contents by path; none marks an absent path. -/
abbrev FileSys := String → Option String

/-- Effect of tweak_file on the file system. -/
def apply_tweak (fs : FileSys) (file ts : String) : FileSys :=
  fun p => if p = file then some (tweak_file file ts (fs file)) else fs p

/-- Environment of one main-loop iteration: the chosen file, timestamp,
chosen commit message, and the exit codes the three git subprocesses
would return. -/
structure IterIn where
  file : String
  ts : String
  msg : String
  addExit : ℕ
  commitExit : ℕ
  pushExit : ℕ
deriving Repr

/-- One main-loop iteration after the countdown: mutate the file, then
run add, commit, push in order with check enabled — the first nonzero
exit raises, skipping the remaining steps.  Returns the file system, the
log of subprocess argument vectors actually run, and the raised exit
code if any. -/
def loop_iter (it : IterIn) (fs : FileSys) : FileSys × List (List String) × Option ℕ :=
  let fs2 := apply_tweak fs it.file it.ts
  if it.addExit ≠ 0 then (fs2, [git_add it.file], some it.addExit)
  else if it.commitExit ≠ 0 then (fs2, [git_add it.file, git_commit it.msg], some it.commitExit)
  else if it.pushExit ≠ 0 then (fs2, [git_add it.file, git_commit it.msg, git_push], some it.pushExit)
  else (fs2, [git_add it.file, git_commit it.msg, git_push], none)

/-- The main loop over a finite prefix of iteration environments: an
uncaught CalledProcessError terminates the process, so iterations after
the first failure never run. -/
def main_loop : List IterIn → FileSys → FileSys × List (List String) × Option ℕ
  | [], fs => (fs, [], none)
  | it :: rest, fs =>
    match loop_iter it fs with
    | (fs2, log, some c) => (fs2, log, some c)
    | (fs2, log, none) =>
      match main_loop rest fs2 with
      | (fs3, log2, r) => (fs3, log ++ log2, r)

/-- Variant 1 startup: BASE_MEAN_INTERVAL is computed at module load —
a zero rate raises ZeroDivisionError there, before the identity-setting
git commands of the main block (returned with the base on success) and
before any file is touched. -/
def git_identity_cmds : List (List String) :=
  [["git", "config", "user.name", "Prady Saligram"], ["git", "config", "user.email", "psaligram@stanford.edu"]]

def startup_v1 (tph : ℚ) : Except String (ℚ × List (List String)) :=
  if tph = 0 then Except.error "ZeroDivisionError: float division by zero"
  else Except.ok (BASE_MEAN_INTERVAL_v1 tph, git_identity_cmds)

/-- Variant 2 startup: same shape, but the base interval has no floor. -/
def startup_v2 (tph : ℚ) : Except String (ℚ × List (List String)) :=
  if tph = 0 then Except.error "ZeroDivisionError: float division by zero"
  else Except.ok (V2.BASE_MEAN_INTERVAL tph, git_identity_cmds)

/-- The per-call trace of get_effective_delay restricted to states: fold
over the random draws of successive calls sharing one week/day key. -/
def run_calls (tph : ℚ) (week today : ℤ) (draws : List (ℚ × ℚ × ℚ))
    (s : SchedState) : SchedState :=
  draws.foldl (fun st d => (get_effective_delay tph week today d.1 d.2.1 d.2.2 st).1) s

theorem get_effective_delay_hf (tph : ℚ) (week today : ℤ) (gw gd e : ℚ)
    (s : SchedState) (h : 10 < tph) :
    get_effective_delay tph week today gw gd e s = (s, max MIN_DELAY e) := by
  simp [get_effective_delay, h]

theorem get_effective_delay_lf (tph : ℚ) (week today : ℤ) (gw gd e : ℚ)
    (s : SchedState) (h : ¬ 10 < tph) :
    get_effective_delay tph week today gw gd e s =
      hier_delay MIN_DELAY MIN_DELAY week today gw gd e s := by
  simp [get_effective_delay, hier_delay, resample_weekly, resample_daily, h]

theorem v2_loop_delay_eq_hier (week today : ℤ) (gw gd e : ℚ) (s : SchedState) :
    V2.loop_delay week today gw gd e s = hier_delay 600 300 week today gw gd e s := rfl

theorem hier_delay_keys (wf df : ℚ) (week today : ℤ) (gw gd e : ℚ) (s : SchedState) :
    (hier_delay wf df week today gw gd e s).1.current_week = some week ∧
    (hier_delay wf df week today gw gd e s).1.current_day = some today := by
  unfold hier_delay
  by_cases h1 : some week = s.current_week <;> by_cases h2 : some today = s.current_day <;> simp_all

theorem hier_delay_weekly_cases (wf df : ℚ) (week today : ℤ) (gw gd e : ℚ) (s : SchedState) :
    (hier_delay wf df week today gw gd e s).1.weekly_mean = s.weekly_mean ∨
    (hier_delay wf df week today gw gd e s).1.weekly_mean = max wf gw := by
  unfold hier_delay
  by_cases h1 : some week = s.current_week <;> by_cases h2 : some today = s.current_day <;> simp_all

theorem hier_delay_daily_cases (wf df : ℚ) (week today : ℤ) (gw gd e : ℚ) (s : SchedState) :
    (hier_delay wf df week today gw gd e s).1.daily_mean = s.daily_mean ∨
    (hier_delay wf df week today gw gd e s).1.daily_mean = max df gd := by
  unfold hier_delay
  by_cases h1 : some week = s.current_week <;> by_cases h2 : some today = s.current_day <;> simp_all

theorem hier_delay_weekly_cached (wf df : ℚ) (week today : ℤ) (gw gd e : ℚ)
    (s : SchedState) (h : some week = s.current_week) :
    (hier_delay wf df week today gw gd e s).1.weekly_mean = s.weekly_mean := by
  unfold hier_delay
  by_cases h2 : some today = s.current_day <;> simp_all

theorem hier_delay_daily_cached (wf df : ℚ) (week today : ℤ) (gw gd e : ℚ)
    (s : SchedState) (h : some today = s.current_day) :
    (hier_delay wf df week today gw gd e s).1.daily_mean = s.daily_mean := by
  unfold hier_delay
  by_cases h1 : some week = s.current_week <;> simp_all

theorem hier_delay_output (wf df : ℚ) (week today : ℤ) (gw gd e : ℚ) (s : SchedState) :
    (hier_delay wf df week today gw gd e s).2 =
      draw_delay (hier_delay wf df week today gw gd e s).1.daily_mean e := by
  unfold hier_delay
  by_cases h1 : some week = s.current_week <;> by_cases h2 : some today = s.current_day <;> simp_all

theorem get_effective_delay_fix (tph : ℚ) (week today : ℤ) (gw gd e : ℚ)
    (s : SchedState) (hw : some week = s.current_week) (hd : some today = s.current_day) :
    (get_effective_delay tph week today gw gd e s).1 = s := by
  unfold get_effective_delay
  by_cases h1 : 10 < tph <;> simp_all <;> split_ifs <;> rfl

theorem run_calls_fix (tph : ℚ) (week today : ℤ) (draws : List (ℚ × ℚ × ℚ))
    (s : SchedState) (hw : some week = s.current_week) (hd : some today = s.current_day) :
    run_calls tph week today draws s = s := by
  induction draws with
  | nil => rfl
  | cons d rest ih =>
    unfold run_calls
    rw [List.foldl_cons, get_effective_delay_fix tph week today d.1 d.2.1 d.2.2 s hw hd]
    exact ih

theorem get_effective_delay_lf_keys (tph : ℚ) (week today : ℤ) (gw gd e : ℚ)
    (s : SchedState) (h : ¬ 10 < tph) :
    (get_effective_delay tph week today gw gd e s).1.current_week = some week ∧
    (get_effective_delay tph week today gw gd e s).1.current_day = some today := by
  rw [get_effective_delay_lf tph week today gw gd e s h]
  exact hier_delay_keys MIN_DELAY MIN_DELAY week today gw gd e s

theorem hier_delay_weekly_fresh (wf df : ℚ) (week today : ℤ) (gw gd e : ℚ)
    (s : SchedState) (h : ¬ some week = s.current_week) :
    (hier_delay wf df week today gw gd e s).1.weekly_mean = max wf gw := by
  unfold hier_delay
  by_cases h2 : some today = s.current_day <;> simp_all

theorem hier_delay_daily_fresh (wf df : ℚ) (week today : ℤ) (gw gd e : ℚ)
    (s : SchedState) (h : ¬ some today = s.current_day) :
    (hier_delay wf df week today gw gd e s).1.daily_mean = max df gd := by
  unfold hier_delay
  by_cases h1 : some week = s.current_week <;> simp_all

theorem v2_update_state_eq_hier (week today : ℤ) (gw gd : ℚ) (s : SchedState) :
    V2.update_state week today gw gd s = (hier_delay 600 300 week today gw gd 0 s).1 := rfl

theorem draw_delay_bounds (mean e : ℚ) (hm : 0 < mean) (he : 0 ≤ e) :
    0 ≤ draw_delay mean e ∧ draw_delay mean e ≤ mean * MAX_MULTIPLIER := by
  unfold draw_delay MAX_MULTIPLIER
  exact ⟨le_min he (by nlinarith), min_le_right _ _⟩

/-- C2 counterexample: at a rate of 12 commits per hour the second
variant initialises weekly_mean to its base mean interval 300, below the
weekly floor 600, so the schedule-state variables do not satisfy the
claimed lower bounds at every moment. -/
theorem c2_initial_state_below_floor :
    (initState (V2.BASE_MEAN_INTERVAL 12)).weekly_mean < 600 := by
  norm_num [initState, V2.BASE_MEAN_INTERVAL]

/-- C2 (amended): every sampled weekly or daily mean is at least its
configured floor in both variants; the variant 1 schedule state meets
the floors at initialisation (nonzero rate) and every call preserves
them; the variant 2 state meets its floors as soon as both keys are
resampled — as on the first loop iteration, where both keys are fresh —
and every later iteration preserves them.  Only the variant 2 values
predating the first resample may sit below the floors. -/
theorem c2_means_respect_floors :
    (∀ g, MIN_DELAY ≤ resample_weekly g) ∧
    (∀ wm g, MIN_DELAY ≤ resample_daily wm g) ∧
    (∀ g, 600 ≤ V2.resample_weekly g) ∧
    (∀ wm g, 300 ≤ V2.resample_daily wm g) ∧
    (∀ tph : ℚ, tph ≠ 0 →
      MIN_DELAY ≤ (initState (BASE_MEAN_INTERVAL_v1 tph)).weekly_mean ∧
      MIN_DELAY ≤ (initState (BASE_MEAN_INTERVAL_v1 tph)).daily_mean) ∧
    (∀ (tph : ℚ) (week today : ℤ) (gw gd e : ℚ) (s : SchedState),
      MIN_DELAY ≤ s.weekly_mean → MIN_DELAY ≤ s.daily_mean →
      MIN_DELAY ≤ (get_effective_delay tph week today gw gd e s).1.weekly_mean ∧
      MIN_DELAY ≤ (get_effective_delay tph week today gw gd e s).1.daily_mean) ∧
    (∀ (week today : ℤ) (gw gd : ℚ) (s : SchedState),
      600 ≤ s.weekly_mean → 300 ≤ s.daily_mean →
      600 ≤ (V2.update_state week today gw gd s).weekly_mean ∧
      300 ≤ (V2.update_state week today gw gd s).daily_mean) ∧
    (∀ (week today : ℤ) (gw gd : ℚ) (s : SchedState),
      ¬ some week = s.current_week → ¬ some today = s.current_day →
      600 ≤ (V2.update_state week today gw gd s).weekly_mean ∧
      300 ≤ (V2.update_state week today gw gd s).daily_mean) := by
  refine ⟨fun g => le_max_left _ _, fun wm g => le_max_left _ _,
    fun g => le_max_left _ _, fun wm g => le_max_left _ _, ?_, ?_, ?_, ?_⟩
  · intro tph htph
    simp only [initState, BASE_MEAN_INTERVAL_v1]
    constructor <;> split_ifs <;> simp_all [MIN_DELAY] <;> linarith
  · intro tph week today gw gd e s hws hds
    by_cases h : 10 < tph
    · rw [get_effective_delay_hf tph week today gw gd e s h]
      exact ⟨hws, hds⟩
    · rw [get_effective_delay_lf tph week today gw gd e s h]
      constructor
      · rcases hier_delay_weekly_cases MIN_DELAY MIN_DELAY week today gw gd e s with hc | hc
        · rw [hc]; exact hws
        · rw [hc]; exact le_max_left _ _
      · rcases hier_delay_daily_cases MIN_DELAY MIN_DELAY week today gw gd e s with hc | hc
        · rw [hc]; exact hds
        · rw [hc]; exact le_max_left _ _
  · intro week today gw gd s hws hds
    rw [v2_update_state_eq_hier]
    constructor
    · rcases hier_delay_weekly_cases 600 300 week today gw gd 0 s with hc | hc
      · rw [hc]; exact hws
      · rw [hc]; exact le_max_left _ _
    · rcases hier_delay_daily_cases 600 300 week today gw gd 0 s with hc | hc
      · rw [hc]; exact hds
      · rw [hc]; exact le_max_left _ _
  · intro week today gw gd s hwk hdk
    rw [v2_update_state_eq_hier]
    rw [hier_delay_weekly_fresh 600 300 week today gw gd 0 s hwk,
        hier_delay_daily_fresh 600 300 week today gw gd 0 s hdk]
    exact ⟨le_max_left _ _, le_max_left _ _⟩

/-- C2 witness: the amended floor bounds at concrete inputs. -/
theorem c2_means_respect_floors_witness :
    MIN_DELAY ≤ (initState (BASE_MEAN_INTERVAL_v1 2)).weekly_mean ∧
    MIN_DELAY ≤ (get_effective_delay 1 1 1 0 5 30 (initState 3600)).1.daily_mean ∧
    600 ≤ (V2.update_state 1 1 700 400 (initState 3600)).weekly_mean :=
  ⟨(c2_means_respect_floors.2.2.2.2.1 2 (by norm_num)).1,
   (c2_means_respect_floors.2.2.2.2.2.1 1 1 1 0 5 30 (initState 3600)
      (by norm_num [initState, MIN_DELAY]) (by norm_num [initState, MIN_DELAY])).2,
   (c2_means_respect_floors.2.2.2.2.2.2.2 1 1 700 400 (initState 3600)
      (by simp [initState]) (by simp [initState])).1⟩

/-- C1 counterexample: at 20 commits per hour the program is in the
high-frequency mode with base mean 180 s; an exponential draw of 1000 s
is returned unclamped as the delay, exceeding 180 times MAX_MULTIPLIER
= 720 s, so the claimed upper bound fails for these delays. -/
theorem c1_highfreq_delay_exceeds_clamp :
    BASE_MEAN_INTERVAL_v1 20 = 180 ∧
    (get_effective_delay 20 1 1 0 0 1000 (initState 180)).2 = 1000 ∧
    BASE_MEAN_INTERVAL_v1 20 * MAX_MULTIPLIER < 1000 := by
  refine ⟨by norm_num [BASE_MEAN_INTERVAL_v1, MIN_DELAY], ?_,
    by norm_num [BASE_MEAN_INTERVAL_v1, MIN_DELAY, MAX_MULTIPLIER]⟩
  rw [get_effective_delay_hf 20 1 1 0 0 1000 (initState 180) (by norm_num)]
  norm_num [MIN_DELAY]

/-- C1 (amended): for a positive mean and a nonnegative exponential draw,
draw_delay lies between 0 and mean times MAX_MULTIPLIER; hence in the
hierarchical mode (rate at most 10 per hour, positive daily mean) every
delay returned by get_effective_delay obeys the clamp with respect to
the daily mean in force.  In the high-frequency mode the delay is only
bounded below by MIN_DELAY; no upper clamp applies there. -/
theorem c1_delay_within_clamp :
    (∀ mean e : ℚ, 0 < mean → 0 ≤ e →
      0 ≤ draw_delay mean e ∧ draw_delay mean e ≤ mean * MAX_MULTIPLIER) ∧
    (∀ (tph : ℚ) (week today : ℤ) (gw gd e : ℚ) (s : SchedState),
      ¬ 10 < tph → 0 ≤ e → 0 < s.daily_mean →
      0 ≤ (get_effective_delay tph week today gw gd e s).2 ∧
      (get_effective_delay tph week today gw gd e s).2 ≤
        (get_effective_delay tph week today gw gd e s).1.daily_mean * MAX_MULTIPLIER) ∧
    (∀ (tph : ℚ) (week today : ℤ) (gw gd e : ℚ) (s : SchedState), 10 < tph →
      MIN_DELAY ≤ (get_effective_delay tph week today gw gd e s).2) := by
  refine ⟨draw_delay_bounds, ?_, ?_⟩
  · intro tph week today gw gd e s h he hd
    rw [get_effective_delay_lf tph week today gw gd e s h, hier_delay_output]
    have hpos : 0 < (hier_delay MIN_DELAY MIN_DELAY week today gw gd e s).1.daily_mean := by
      rcases hier_delay_daily_cases MIN_DELAY MIN_DELAY week today gw gd e s with hc | hc
      · rw [hc]; exact hd
      · rw [hc]
        have : MIN_DELAY ≤ max MIN_DELAY gd := le_max_left _ _
        have h10 : (0:ℚ) < MIN_DELAY := by norm_num [MIN_DELAY]
        linarith
    exact draw_delay_bounds _ e hpos he
  · intro tph week today gw gd e s h
    rw [get_effective_delay_hf tph week today gw gd e s h]
    exact le_max_left _ _

/-- C1 witness: the amended clamp bounds at concrete inputs. -/
theorem c1_delay_within_clamp_witness :
    (0 ≤ draw_delay 60 30 ∧ draw_delay 60 30 ≤ 60 * MAX_MULTIPLIER) ∧
    0 ≤ (get_effective_delay 1 1 1 0 5 30 (initState 3600)).2 ∧
    MIN_DELAY ≤ (get_effective_delay 20 1 1 0 0 7 (initState 180)).2 :=
  ⟨c1_delay_within_clamp.1 60 30 (by norm_num) (by norm_num),
   (c1_delay_within_clamp.2.1 1 1 1 0 5 30 (initState 3600)
      (by norm_num) (by norm_num) (by norm_num [initState])).1,
   c1_delay_within_clamp.2.2 20 1 1 0 0 7 (initState 180) (by norm_num)⟩

/-- C4 counterexample: at 20 commits per hour with an exponential draw of
1 s, get_effective_delay returns 10 s, not the draw: the high-frequency
path floors the draw at MIN_DELAY, so the returned delay is not the raw
exponential sample on the base interval. -/
theorem c4_highfreq_not_raw_draw :
    (get_effective_delay 20 1 1 0 0 1 (initState 180)).2 = 10 ∧ ((10 : ℚ) ≠ 1) := by
  constructor
  · rw [get_effective_delay_hf 20 1 1 0 0 1 (initState 180) (by norm_num)]
    norm_num [MIN_DELAY]
  · norm_num

/-- C4 (amended): when the configured rate exceeds 10 per hour,
get_effective_delay leaves the schedule state untouched — weekly_mean
and daily_mean are neither read nor updated, the result not depending on
them — and returns the exponential draw on the base interval floored at
MIN_DELAY. -/
theorem c4_highfreq_bypass (tph : ℚ) (week today : ℤ) (gw gd e : ℚ)
    (s : SchedState) (h : 10 < tph) :
    get_effective_delay tph week today gw gd e s = (s, max MIN_DELAY e) :=
  get_effective_delay_hf tph week today gw gd e s h

/-- C4 witness: the bypass at a concrete high-frequency input. -/
theorem c4_highfreq_bypass_witness :
    get_effective_delay 20 1 1 0 0 7 (initState 180) = (initState 180, max MIN_DELAY 7) :=
  c4_highfreq_bypass 20 1 1 0 0 7 (initState 180) (by norm_num)

/-- C6 counterexample: at 60 commits per hour the rate exceeds 10, so
variant 1 takes the high-frequency path: with a daily gaussian draw of
5 s the daily mean stays at its prior value 60 s rather than being
resampled and raised to the 10 s floor — the program performs no daily
resampling at this frequency. -/
theorem c6_no_daily_resample_at_60 :
    BASE_MEAN_INTERVAL_v1 60 = 60 ∧
    (get_effective_delay 60 1 1 0 5 30 (initState (BASE_MEAN_INTERVAL_v1 60))).1.daily_mean = 60 ∧
    ((60 : ℚ) ≠ 10) := by
  refine ⟨by norm_num [BASE_MEAN_INTERVAL_v1, MIN_DELAY], ?_, by norm_num⟩
  rw [get_effective_delay_hf 60 1 1 0 5 30 (initState (BASE_MEAN_INTERVAL_v1 60)) (by norm_num)]
  norm_num [initState, BASE_MEAN_INTERVAL_v1, MIN_DELAY]

/-- C6 (amended): at 60 commits per hour the base mean interval is 60 s,
and the daily resampling function would raise a sampled daily mean of
5 s to the 10 s floor; but at this frequency variant 1 bypasses the
hierarchy — get_effective_delay leaves the schedule state unchanged, so
the raise is never performed by the program. -/
theorem c6_scenario_amended :
    BASE_MEAN_INTERVAL_v1 60 = 60 ∧
    (∀ wm : ℚ, resample_daily wm 5 = 10) ∧
    (∀ (week today : ℤ) (gw gd e : ℚ) (s : SchedState),
      (get_effective_delay 60 week today gw gd e s).1 = s) := by
  refine ⟨by norm_num [BASE_MEAN_INTERVAL_v1, MIN_DELAY], ?_, ?_⟩
  · intro wm
    norm_num [resample_daily, MIN_DELAY]
  · intro week today gw gd e s
    rw [get_effective_delay_hf 60 week today gw gd e s (by norm_num)]

/-- C3: in the hierarchical mode a call with an unchanged week key leaves
weekly_mean intact and an unchanged day key leaves daily_mean intact,
while a fresh clamped exponential delay is drawn from the final daily
mean on every call; moreover, once a call has recorded the week and day
keys, any number of further calls under the same keys leaves the whole
schedule state fixed, so resampling happens at most once per distinct
key. -/
theorem c3_resampling_cached :
    (∀ (tph : ℚ) (week today : ℤ) (gw gd e : ℚ) (s : SchedState), ¬ 10 < tph →
      (some week = s.current_week →
        (get_effective_delay tph week today gw gd e s).1.weekly_mean = s.weekly_mean) ∧
      (some today = s.current_day →
        (get_effective_delay tph week today gw gd e s).1.daily_mean = s.daily_mean) ∧
      (get_effective_delay tph week today gw gd e s).2 =
        draw_delay (get_effective_delay tph week today gw gd e s).1.daily_mean e) ∧
    (∀ (tph : ℚ) (week today : ℤ) (gw gd e : ℚ) (s : SchedState)
      (draws : List (ℚ × ℚ × ℚ)), ¬ 10 < tph →
      run_calls tph week today draws (get_effective_delay tph week today gw gd e s).1 =
        (get_effective_delay tph week today gw gd e s).1) := by
  constructor
  · intro tph week today gw gd e s h
    rw [get_effective_delay_lf tph week today gw gd e s h]
    exact ⟨fun hw => hier_delay_weekly_cached _ _ _ _ _ _ _ _ hw,
           fun hd => hier_delay_daily_cached _ _ _ _ _ _ _ _ hd,
           hier_delay_output _ _ _ _ _ _ _ _⟩
  · intro tph week today gw gd e s draws h
    obtain ⟨hw, hd⟩ := get_effective_delay_lf_keys tph week today gw gd e s h
    exact run_calls_fix tph week today draws _ hw.symm hd.symm

/-- C3 witness: after a first call of the day, a second call with the
same keys keeps the cached daily mean and the state is fixed. -/
theorem c3_resampling_cached_witness :
    (get_effective_delay 1 1 1 0 5 30 (get_effective_delay 1 1 1 7 8 9 (initState 3600)).1).1.daily_mean =
      (get_effective_delay 1 1 1 7 8 9 (initState 3600)).1.daily_mean ∧
    run_calls 1 1 1 [(0, 5, 30)] (get_effective_delay 1 1 1 7 8 9 (initState 3600)).1 =
      (get_effective_delay 1 1 1 7 8 9 (initState 3600)).1 :=
  ⟨(c3_resampling_cached.1 1 1 1 0 5 30 (get_effective_delay 1 1 1 7 8 9 (initState 3600)).1
      (by norm_num)).2.1
      (by simp [get_effective_delay, initState, resample_weekly, resample_daily, MIN_DELAY]),
   c3_resampling_cached.2 1 1 1 7 8 9 (initState 3600) [(0, 5, 30)] (by norm_num)⟩

/-- C9 counterexample: at 20 commits per hour, from identical schedule
state and identical random draws, variant 1 returns 10 s through its
high-frequency path while variant 2 resamples and returns the 5 s
exponential draw — and the same 5 s results even from the hierarchical
step with the variant 1 floor constants — so the variants differ beyond
the floor constants. -/
theorem c9_variants_differ_at_high_rate :
    (get_effective_delay 20 1 1 700 400 5 (initState 180)).2 = 10 ∧
    (V2.loop_delay 1 1 700 400 5 (initState 180)).2 = 5 ∧
    (hier_delay MIN_DELAY MIN_DELAY 1 1 700 400 5 (initState 180)).2 = 5 ∧
    ((10 : ℚ) ≠ 5) := by
  refine ⟨?_, ?_, ?_, by norm_num⟩
  · rw [get_effective_delay_hf 20 1 1 700 400 5 (initState 180) (by norm_num)]
    norm_num [MIN_DELAY]
  · simp [V2.loop_delay, V2.update_state, V2.resample_weekly, V2.resample_daily,
      draw_delay, initState, MAX_MULTIPLIER]
    norm_num
  · simp [hier_delay, draw_delay, initState, MIN_DELAY, MAX_MULTIPLIER]
    norm_num

/-- C9 (amended): for rates of at most 10 per hour both variants compute
the same parameterised hierarchical step, differing only in the floor
constants handed to it — MIN_DELAY twice in variant 1, 600 and 300 in
variant 2 — so with those constants identified the delay computations
coincide, giving equal delays for equal draws and equal state.  Above 10
per hour variant 1 switches to its high-frequency path, which variant 2
lacks. -/
theorem c9_variants_agree_low_rate :
    (∀ (tph : ℚ) (week today : ℤ) (gw gd e : ℚ) (s : SchedState), ¬ 10 < tph →
      get_effective_delay tph week today gw gd e s =
        hier_delay MIN_DELAY MIN_DELAY week today gw gd e s) ∧
    (∀ (week today : ℤ) (gw gd e : ℚ) (s : SchedState),
      V2.loop_delay week today gw gd e s = hier_delay 600 300 week today gw gd e s) :=
  ⟨get_effective_delay_lf, fun week today gw gd e s => rfl⟩

/-- C9 witness: the variant agreement at a concrete low rate. -/
theorem c9_variants_agree_low_rate_witness :
    get_effective_delay 1 1 1 700 400 5 (initState 3600) =
      hier_delay MIN_DELAY MIN_DELAY 1 1 700 400 5 (initState 3600) :=
  c9_variants_agree_low_rate.1 1 1 1 700 400 5 (initState 3600) (by norm_num)

theorem stamp_note_length_pos (path ts : String) : 0 < (stamp_note path ts).length := by
  unfold stamp_note
  split_ifs
  · rw [String.length_append, String.length_append]
    have h1 : ("\n> Last touched: ").length = 17 := rfl
    omega
  · rw [String.length_append, String.length_append]
    have h1 : ("\n# Touched at ").length = 14 := rfl
    omega

/-- C5: tweak_file on an existing file preserves the prior content and
appends exactly the timestamp note; on an absent path it first writes
the template chosen by extension — the .py template, the .md template,
or the generic fallback — and then appends the note; in every case the
resulting content is strictly longer than before, an absent file
counting as empty. -/
theorem c5_tweak_file_spec :
    (∀ path ts c, tweak_file path ts (some c) = c ++ stamp_note path ts) ∧
    (∀ path ts, tweak_file path ts none = template_content path ++ stamp_note path ts) ∧
    (∀ path : String, strEndsWith path ".py" = true → template_content path = pyTemplate path) ∧
    (∀ path : String, strEndsWith path ".py" = false → strEndsWith path ".md" = true →
      template_content path = mdTemplate path) ∧
    (∀ path : String, strEndsWith path ".py" = false → strEndsWith path ".md" = false →
      template_content path = genericTemplate path) ∧
    (∀ (path ts : String) (old : Option String),
      (old.getD "").length < (tweak_file path ts old).length) := by
  refine ⟨fun path ts c => rfl, fun path ts => rfl, ?_, ?_, ?_, ?_⟩
  · intro path h
    simp [template_content, h]
  · intro path h1 h2
    simp [template_content, h1, h2]
  · intro path h1 h2
    simp [template_content, h1, h2]
  · intro path ts old
    have hn := stamp_note_length_pos path ts
    cases old with
    | some c =>
      simp only [Option.getD_some, tweak_file, ensure_file_exists, String.length_append]
      omega
    | none =>
      simp only [Option.getD_none, tweak_file, ensure_file_exists, String.length_append]
      have h0 : ("" : String).length = 0 := rfl
      omega

/-- C5 witness: the extension dispatch at concrete paths. -/
theorem c5_tweak_file_spec_witness :
    template_content "src/qss/live/live.py" = pyTemplate "src/qss/live/live.py" ∧
    template_content "README.md" = mdTemplate "README.md" ∧
    template_content "notes.txt" = genericTemplate "notes.txt" :=
  ⟨c5_tweak_file_spec.2.2.1 "src/qss/live/live.py" (by decide),
   c5_tweak_file_spec.2.2.2.1 "README.md" (by decide) (by decide),
   c5_tweak_file_spec.2.2.2.2.1 "notes.txt" (by decide) (by decide)⟩

/-- C7: a nonzero exit status of any of the three git steps of a loop
iteration stops the whole loop with that status: the steps after the
failing one are never run, no later iteration runs, nothing is retried,
and the file mutation already performed in the iteration is kept — no
rollback takes place. -/
theorem c7_subprocess_failure_fatal (it : IterIn) (rest : List IterIn) (fs : FileSys) :
    (it.addExit ≠ 0 →
      main_loop (it :: rest) fs =
        (apply_tweak fs it.file it.ts, [git_add it.file], some it.addExit)) ∧
    (it.addExit = 0 → it.commitExit ≠ 0 →
      main_loop (it :: rest) fs =
        (apply_tweak fs it.file it.ts, [git_add it.file, git_commit it.msg], some it.commitExit)) ∧
    (it.addExit = 0 → it.commitExit = 0 → it.pushExit ≠ 0 →
      main_loop (it :: rest) fs =
        (apply_tweak fs it.file it.ts, [git_add it.file, git_commit it.msg, git_push], some it.pushExit)) ∧
    apply_tweak fs it.file it.ts it.file = some (tweak_file it.file it.ts (fs it.file)) := by
  refine ⟨?_, ?_, ?_, by simp [apply_tweak]⟩
  · intro h
    simp [main_loop, loop_iter, h]
  · intro h1 h2
    simp [main_loop, loop_iter, h1, h2]
  · intro h1 h2 h3
    simp [main_loop, loop_iter, h1, h2, h3]

/-- C7 witness: a failing git add in the first of two iterations stops
the loop at once with exit status 1, the mutation kept. -/
theorem c7_subprocess_failure_fatal_witness :
    main_loop [⟨"README.md", "t", "m", 1, 0, 0⟩, ⟨"README.md", "t", "m", 0, 0, 0⟩] (fun p => none) =
      (apply_tweak (fun p => none) "README.md" "t", [git_add "README.md"], some 1) :=
  (c7_subprocess_failure_fatal ⟨"README.md", "t", "m", 1, 0, 0⟩
    [⟨"README.md", "t", "m", 0, 0, 0⟩] (fun p => none)).1 (by decide)

theorem countdown_go_finds (clock : ℕ → ℚ) (delay : ℚ) :
    ∀ (fuel i : ℕ), (∃ m, m < fuel ∧ delay ≤ clock (i + m) - clock 0) →
    ∃ k, i ≤ k ∧ countdown_go clock delay i fuel = some k ∧
      delay ≤ clock k - clock 0 ∧ ∀ j, i ≤ j → j < k → clock j - clock 0 < delay := by
  intro fuel
  induction fuel with
  | zero =>
    intro i hex
    obtain ⟨m, hm, _⟩ := hex
    exact absurd hm (Nat.not_lt_zero m)
  | succ fuel ih =>
    intro i hex
    obtain ⟨m, hm, hreach⟩ := hex
    by_cases h : delay ≤ clock i - clock 0
    · exact ⟨i, le_refl i, by simp [countdown_go, h], h, fun j hij hji => absurd (lt_of_le_of_lt hij hji) (lt_irrefl i)⟩
    · have hm0 : m ≠ 0 := by
        intro h0
        rw [h0, Nat.add_zero] at hreach
        exact h hreach
      have hstep : ∃ m2, m2 < fuel ∧ delay ≤ clock (i + 1 + m2) - clock 0 := by
        refine ⟨m - 1, by omega, ?_⟩
        have harith : i + 1 + (m - 1) = i + m := by omega
        rw [harith]
        exact hreach
      obtain ⟨k, hik, heq, hk, hmin⟩ := ih (i + 1) hstep
      refine ⟨k, by omega, ?_, hk, ?_⟩
      · simp only [countdown_go, if_neg h]
        exact heq
      · intro j hij hjk
        rcases Nat.eq_or_lt_of_le hij with heqj | hltj
        · rw [← heqj]
          exact not_le.mp h
        · exact hmin j hltj hjk

/-- C8: for a nonnegative delay and a monotone clock whose reading n has
advanced by at least the delay, the countdown loop terminates within n
polls and returns exactly the first poll index at which the observed
elapsed time reached the delay; every earlier poll observed an elapsed
time below the delay. -/
theorem c8_countdown_terminates (clock : ℕ → ℚ) (delay : ℚ) (n : ℕ)
    (hdelay : 0 ≤ delay) (hmono : Monotone clock) (hn : 1 ≤ n)
    (hreach : delay ≤ clock n - clock 0) :
    ∃ k, 1 ≤ k ∧ k ≤ n ∧ countdown clock delay n = some k ∧
      delay ≤ clock k - clock 0 ∧ ∀ j, 1 ≤ j → j < k → clock j - clock 0 < delay := by
  have hex : ∃ m, m < n ∧ delay ≤ clock (1 + m) - clock 0 := by
    refine ⟨n - 1, by omega, ?_⟩
    have harith : 1 + (n - 1) = n := by omega
    rw [harith]
    exact hreach
  obtain ⟨k, h1k, heq, hk, hmin⟩ := countdown_go_finds clock delay n 1 hex
  refine ⟨k, h1k, ?_, heq, hk, hmin⟩
  by_contra hkn
  push_neg at hkn
  exact absurd hreach (not_le.mpr (hmin n hn hkn))

/-- C8 witness: with the identity clock and delay 2, the countdown stops
at poll 2. -/
theorem c8_countdown_terminates_witness :
    ∃ k, 1 ≤ k ∧ k ≤ 3 ∧ countdown (fun i => (i : ℚ)) 2 3 = some k ∧
      2 ≤ (fun i => (i : ℚ)) k - (fun i => (i : ℚ)) 0 ∧
      ∀ j, 1 ≤ j → j < k → (fun i => (i : ℚ)) j - (fun i => (i : ℚ)) 0 < 2 :=
  c8_countdown_terminates (fun i => (i : ℚ)) 2 3 (by norm_num)
    (fun a b hab => by simpa using (Nat.cast_le.mpr hab : (a : ℚ) ≤ b)) (by norm_num) (by norm_num)

/-- C10 counterexample: at rate -1 variant 1 computes the raw quotient
-3600, but the MIN_DELAY clamp then raises BASE_MEAN_INTERVAL to 10, so
the base mean interval of variant 1 is not negative on negative input. -/
theorem c10_v1_negative_rate_clamped :
    BASE_MEAN_INTERVAL_v1 (-1) = 10 ∧ ¬ BASE_MEAN_INTERVAL_v1 (-1) < 0 := by
  constructor <;> norm_num [BASE_MEAN_INTERVAL_v1, MIN_DELAY]

/-- C10 (amended): the CLI accepts any float; at rate 0 the base-interval
division raises ZeroDivisionError during startup — before any git
command is issued and before any file is touched — in both variants.
Negative rates are not rejected: variant 2 proceeds with a negative base
interval, while in variant 1 the MIN_DELAY clamp replaces the negative
quotient by 10. -/
theorem c10_startup_division :
    startup_v1 0 = Except.error "ZeroDivisionError: float division by zero" ∧
    startup_v2 0 = Except.error "ZeroDivisionError: float division by zero" ∧
    (∀ tph : ℚ, tph < 0 → V2.BASE_MEAN_INTERVAL tph < 0 ∧
      startup_v2 tph = Except.ok (V2.BASE_MEAN_INTERVAL tph, git_identity_cmds)) ∧
    (∀ tph : ℚ, tph < 0 → BASE_MEAN_INTERVAL_v1 tph = MIN_DELAY ∧
      startup_v1 tph = Except.ok (BASE_MEAN_INTERVAL_v1 tph, git_identity_cmds)) := by
  refine ⟨by simp [startup_v1], by simp [startup_v2], ?_, ?_⟩
  · intro tph htph
    constructor
    · exact div_neg_of_pos_of_neg (by norm_num) htph
    · simp [startup_v2, ne_of_lt htph]
  · intro tph htph
    have hneg : 3600 / tph < 0 := div_neg_of_pos_of_neg (by norm_num) htph
    constructor
    · unfold BASE_MEAN_INTERVAL_v1
      rw [if_pos]
      calc 3600 / tph < 0 := hneg
        _ < MIN_DELAY := by norm_num [MIN_DELAY]
    · simp [startup_v1, ne_of_lt htph]

/-- C10 witness: the startup facts at rates 0 and -1. -/
theorem c10_startup_division_witness :
    startup_v1 0 = Except.error "ZeroDivisionError: float division by zero" ∧
    V2.BASE_MEAN_INTERVAL (-1) < 0 ∧ BASE_MEAN_INTERVAL_v1 (-1) = MIN_DELAY :=
  ⟨c10_startup_division.1,
   (c10_startup_division.2.2.1 (-1) (by norm_num)).1,
   (c10_startup_division.2.2.2 (-1) (by norm_num)).1⟩
